import Mathlib

/-
Shallow embedding of the farm-advisory services of this repository:
the IoT ingest/alerting service (iot-service.ts), the notification
fan-out service (notification-service.tsx), the market price/trend
estimator (market-service.ts and its extended variant), and the
weather index calculator (CropDiagnosis.tsx, WeatherService).

Numbers are embedded as exact rationals (ℚ) where the source only uses
field arithmetic and rounding, and as reals (ℝ) where the source calls
Math.log or Math.sqrt.  Nondeterministic fields of the source records
(timestamps, interpolated message strings, Math.random) are elided;
every field a claim depends on is kept.
-/

namespace FarmSpec

/-- JavaScript `Math.round`: round half toward positive infinity. -/
def jsRound (x : ℚ) : ℚ := ((⌊x + 1/2⌋ : ℤ) : ℚ)

/-! ## IoT service (iot-service.ts) -/

/-- One row of the `thresholds` table of `analyzeForAlerts`. -/
structure Thresholds where
  critical_low : ℚ
  warning_low : ℚ
  warning_high : ℚ
  critical_high : ℚ
deriving DecidableEq, Repr

/-- The `thresholds` lookup table of `analyzeForAlerts` (iot-service.ts,
lines 227-236); an unknown sensor type has no entry. -/
def thresholdsFor (sensorType : String) : Option Thresholds :=
  if sensorType = "soil_moisture" then some ⟨15, 25, 75, 85⟩
  else if sensorType = "soil_temperature" then some ⟨10, 15, 32, 40⟩
  else if sensorType = "soil_ph" then some ⟨5.0, 5.5, 7.8, 8.5⟩
  else if sensorType = "air_temperature" then some ⟨5, 10, 38, 45⟩
  else if sensorType = "humidity" then some ⟨25, 35, 80, 90⟩
  else if sensorType = "light_intensity" then some ⟨5000, 15000, 70000, 90000⟩
  else none

/-- `getActionForAlert` (iot-service.ts, lines 289-330): nested lookup of
the recommended action with the fallback string of the source. -/
def getActionForAlert (sensorType alertType : String) : String :=
  if sensorType = "soil_moisture" then
    if alertType = "critical_low" then "Immediate irrigation required"
    else if alertType = "warning_low" then "Schedule irrigation within 24 hours"
    else if alertType = "warning_high" then "Check drainage, reduce irrigation"
    else if alertType = "critical_high" then "Stop irrigation, improve drainage immediately"
    else "Monitor and take appropriate action"
  else if sensorType = "soil_temperature" then
    if alertType = "critical_low" then "Protect crops from cold, consider heating"
    else if alertType = "warning_low" then "Monitor for cold stress"
    else if alertType = "warning_high" then "Increase shade, mulching recommended"
    else if alertType = "critical_high" then "Emergency cooling required"
    else "Monitor and take appropriate action"
  else if sensorType = "soil_ph" then
    if alertType = "critical_low" then "Apply lime to increase pH"
    else if alertType = "warning_low" then "Consider pH adjustment"
    else if alertType = "warning_high" then "Apply sulfur or organic matter"
    else if alertType = "critical_high" then "Immediate pH correction needed"
    else "Monitor and take appropriate action"
  else if sensorType = "air_temperature" then
    if alertType = "critical_low" then "Frost protection measures needed"
    else if alertType = "warning_low" then "Monitor for cold damage"
    else if alertType = "warning_high" then "Provide shade, increase ventilation"
    else if alertType = "critical_high" then "Emergency cooling and shade required"
    else "Monitor and take appropriate action"
  else if sensorType = "humidity" then
    if alertType = "critical_low" then "Increase irrigation, misting"
    else if alertType = "warning_low" then "Monitor plant stress"
    else if alertType = "warning_high" then "Improve ventilation"
    else if alertType = "critical_high" then "Prevent fungal diseases, reduce moisture"
    else "Monitor and take appropriate action"
  else if sensorType = "light_intensity" then
    if alertType = "critical_low" then "Supplement with artificial lighting"
    else if alertType = "warning_low" then "Monitor for reduced photosynthesis"
    else if alertType = "warning_high" then "Provide shade during peak hours"
    else if alertType = "critical_high" then "Immediate shade protection required"
    else "Monitor and take appropriate action"
  else "Monitor and take appropriate action"

/-- An alert produced by `analyzeForAlerts`; the interpolated `message`
string and the wall-clock `timestamp` of the source are elided. -/
structure Alert where
  type : String
  severity : String
  action : String
deriving DecidableEq, Repr

/-- The value-threshold branch chain of `analyzeForAlerts`
(iot-service.ts, lines 241-273): an if/else-if cascade, so at most one
branch pushes an alert. -/
def valueThresholdAlerts (sensorType : String) (th : Thresholds) (value : ℚ) : List Alert :=
  if value ≤ th.critical_low then
    [⟨"critical", "high", getActionForAlert sensorType "critical_low"⟩]
  else if value ≤ th.warning_low then
    [⟨"warning", "medium", getActionForAlert sensorType "warning_low"⟩]
  else if value ≥ th.critical_high then
    [⟨"critical", "high", getActionForAlert sensorType "critical_high"⟩]
  else if value ≥ th.warning_high then
    [⟨"warning", "medium", getActionForAlert sensorType "warning_high"⟩]
  else []

/-- The battery-level branch of `analyzeForAlerts` (iot-service.ts,
lines 276-284).  The source guard is `data.batteryLevel &&
data.batteryLevel < 20`: an absent (null) battery level and the falsy
value 0 both skip the alert. -/
def batteryAlerts (batteryLevel : Option ℚ) : List Alert :=
  match batteryLevel with
  | none => []
  | some b => if b ≠ 0 ∧ b < 20 then
      [⟨"maintenance", "low", "Replace or recharge sensor battery"⟩]
    else []

/-- `analyzeForAlerts` (iot-service.ts, lines 223-287).  When the sensor
type has no threshold entry the source returns the (empty) alert list
early, before the battery-level check. -/
def analyzeForAlerts (sensorType : String) (value : ℚ) (batteryLevel : Option ℚ) : List Alert :=
  match thresholdsFor sensorType with
  | none => []
  | some th => valueThresholdAlerts sensorType th value ++ batteryAlerts batteryLevel

/-- The battery field of `normalizeSensorData` (iot-service.ts, line 218):
`sensorData.readings.batteryLevel || null`, so a missing or zero (falsy)
raw battery level is stored as null. -/
def normalizeBatteryLevel (raw : Option ℚ) : Option ℚ :=
  match raw with
  | none => none
  | some b => if b = 0 then none else some b

/-- The `optimalRanges` table of `calculateFarmHealthScore`
(iot-service.ts, lines 398-405). -/
def optimalRangeFor (sensorType : String) : Option (ℚ × ℚ) :=
  if sensorType = "soil_moisture" then some (40, 60)
  else if sensorType = "soil_temperature" then some (20, 30)
  else if sensorType = "soil_ph" then some (6.0, 7.5)
  else if sensorType = "air_temperature" then some (20, 35)
  else if sensorType = "humidity" then some (50, 70)
  else if sensorType = "light_intensity" then some (30000, 60000)
  else none

/-- The per-sensor score deduction of `calculateFarmHealthScore`
(iot-service.ts, lines 407-413): outside the optimal range, subtract
`min(20, deviation * 10)` where `deviation` is the distance to the
range midpoint normalised by the half-width of the range. -/
def healthDeduction (sensorType : String) (value : ℚ) : ℚ :=
  match optimalRangeFor sensorType with
  | none => 0
  | some (lo, hi) =>
    if value < lo ∨ value > hi then
      min 20 (|value - (lo + hi) / 2| / ((hi - lo) / 2) * 10)
    else 0

/-- `calculateFarmHealthScore` (iot-service.ts, lines 389-417).  The
sensor map is embedded as an association list of (sensorType, value);
the source guard `if (!data || !data.value) return` skips entries whose
value is falsy, i.e. 0. -/
def calculateFarmHealthScore (sensors : List (String × ℚ)) : ℚ :=
  let valid := sensors.filter (fun p => p.2 ≠ 0)
  let score := 100 - (valid.map (fun p => healthDeduction p.1 p.2)).sum
  if valid.length > 0 then max 0 (jsRound score) else 0

/-! ## Notification service (notification-service.tsx) -/

/-- The `preferences` object built by `subscribe`
(notification-service.tsx, lines 21-26).  The quiet-hours strings
"HH:MM" are embedded as the hour numbers that
`shouldSendScheduledNotification` parses out of them with
`parseInt(s.split(':')[0])`. -/
structure Preferences where
  frequency : String
  quietStart : ℕ
  quietEnd : ℕ
  language : String
  timezone : String
deriving DecidableEq, Repr

/-- The raw subscription request passed to `subscribe`; optional fields
model the `x || default` defaulting of the source. -/
structure SubscriptionInput where
  userId : String
  farmId : String
  notificationTypes : Option (List String)
  channels : Option (List String)
  frequency : Option String
  quietStart : Option ℕ
  quietEnd : Option ℕ
  language : Option String
  timezone : Option String
deriving Repr

/-- The `subscriptionData` record stored by `subscribe`
(notification-service.tsx, lines 16-30); the `subscribedAt` and
`lastUpdated` timestamps are elided. -/
structure SubscriptionData where
  userId : String
  farmId : String
  notificationTypes : List String
  channels : List String
  preferences : Preferences
  isActive : Bool
deriving DecidableEq, Repr

/-- The normalisation performed by `subscribe` before storing
(notification-service.tsx, lines 16-30), with the source's defaults. -/
def mkSubscriptionData (s : SubscriptionInput) : SubscriptionData :=
  { userId := s.userId
    farmId := s.farmId
    notificationTypes :=
      s.notificationTypes.getD ["price_alerts", "weather_warnings", "crop_recommendations"]
    channels := s.channels.getD ["push"]
    preferences :=
      { frequency := s.frequency.getD "immediate"
        quietStart := s.quietStart.getD 22
        quietEnd := s.quietEnd.getD 6
        language := s.language.getD "en"
        timezone := s.timezone.getD "Asia/Kolkata" }
    isActive := true }

/-- The per-user subscription slots of the key-value store: the value
stored under key `notifications:subscription:<userId>` for each user. -/
def SubscriptionStore : Type := String → Option SubscriptionData

/-- `subscribe` (notification-service.tsx, lines 6-53), restricted to its
effect on the subscription slot: `kv.set` overwrites the previous value
for the same user unconditionally.  (The notification-queue bookkeeping
of lines 36-44 touches other keys and is elided.) -/
def subscribe (store : SubscriptionStore) (s : SubscriptionInput) : SubscriptionStore :=
  fun u => if u = s.userId then some (mkSubscriptionData s) else store u

/-- The channel set of the notification that `sendPriceAlert`
(notification-service.tsx, lines 222-274) builds for one interested
user: it reads the user's stored subscription, compares
`|changePercent|` against the threshold (always the default 5, since
`subscribe` never stores a `priceChangeThreshold` preference), and on
success sets `channels: subscription.channels`.  Returns none when no
notification is built. -/
def priceAlertChannels (store : SubscriptionStore) (userId : String)
    (changePercent : ℚ) : Option (List String) :=
  match store userId with
  | none => none
  | some sub => if 5 ≤ |changePercent| then some sub.channels else none

/-- `shouldSendScheduledNotification` (notification-service.tsx, lines
485-502).  `currentHour` and `currentDay` stand for `now.getHours()` and
`now.getDay()`. -/
def shouldSendScheduledNotification (p : Preferences) (currentHour currentDay : ℕ) : Bool :=
  if currentHour ≥ p.quietStart ∨ currentHour ≤ p.quietEnd then false
  else if p.frequency = "never" then false
  else if p.frequency = "weekly" ∧ currentDay ≠ 1 then false
  else true

/-- Modelled from the spec: the quiet-hours gate as claim C4 words it —
membership of the current hour in the half-open window
`[quietStart, quietEnd)`, wrapping across midnight when the window
straddles it.  Kept separate from the source embedding above so the two
can be compared. -/
def claimedQuietWindow (quietStart quietEnd currentHour : ℕ) : Prop :=
  if quietStart ≤ quietEnd then quietStart ≤ currentHour ∧ currentHour < quietEnd
  else quietStart ≤ currentHour ∨ currentHour < quietEnd

/-- Modelled from the spec: the full suppression condition claim C4
states (quiet-hours window, or frequency never, or weekly off-day). -/
def claimedSuppressed (p : Preferences) (currentHour currentDay : ℕ) : Prop :=
  claimedQuietWindow p.quietStart p.quietEnd currentHour ∨
  p.frequency = "never" ∨ (p.frequency = "weekly" ∧ currentDay ≠ 1)

/-- The storage step of `storeAndDeliverNotification`
(notification-service.tsx, lines 506-513): `unshift` the new
notification, then `splice(100)` when the list exceeds 100 entries. -/
def storeNotificationStep {α : Type} (stored : List α) (n : α) : List α :=
  let stored' := n :: stored
  if stored'.length > 100 then stored'.take 100 else stored'

/-- Storing a batch of notifications one at a time, oldest first,
through `storeAndDeliverNotification`'s storage step. -/
def storeNotifications {α : Type} (ns : List α) : List α :=
  ns.foldl storeNotificationStep []

/-- A stored user notification, with the fields `markAsRead`
(notification-service.tsx, lines 325-345) touches; every other stored
field of the source record is summarised by `payload`. -/
structure UserNotification where
  id : ℕ
  read : Bool
  readAt : Option ℕ
  payload : ℕ
deriving DecidableEq, Repr

/-- The in-place mutation of `markAsRead`: `notifications.find` returns
the first entry with the requested id, and only that entry has `read`
and `readAt` set. -/
def markFirstRead (l : List UserNotification) (nid t : ℕ) : List UserNotification :=
  match l with
  | [] => []
  | n :: ns =>
    if n.id = nid then { n with read := true, readAt := some t } :: ns
    else n :: markFirstRead ns nid t

/-- `markAsRead` (notification-service.tsx, lines 325-345): the updated
stored list together with the returned status string.  When no entry
matches, the source skips the `kv.set`, so the stored list is returned
unchanged. -/
def markAsRead (l : List UserNotification) (nid t : ℕ) : List UserNotification × String :=
  if l.any (fun n => n.id = nid) then (markFirstRead l nid t, "marked_as_read")
  else (l, "notification_not_found")

/-! ## Market service (market-service.ts and the extended variant in
src/unnamed/part_003) -/

/-- The net percent change `((current - previous) / previous) * 100`
from the first to the last price of the series, as computed by both
versions of `analyzePriceTrends`. -/
def netChangePercent (prices : List ℚ) : ℚ :=
  (prices.getLastD 0 - prices.headD 0) / prices.headD 0 * 100

/-- The trend field of `analyzePriceTrends` in market-service.ts (lines
183-204): bullish above +5%, bearish below -5%, else stable. -/
def marketTrend (prices : List ℚ) : String :=
  if prices.length < 2 then "insufficient_data"
  else if netChangePercent prices > 5 then "bullish"
  else if netChangePercent prices < -5 then "bearish"
  else "stable"

/-- Net percent change over a real-valued series, for the extended
variant. -/
noncomputable def netChangePercentR (prices : List ℝ) : ℝ :=
  (prices.getLastD 0 - prices.headD 0) / prices.headD 0 * 100

/-- The mean of the series (src/unnamed/part_003, line 226). -/
noncomputable def seriesMean (prices : List ℝ) : ℝ :=
  prices.sum / prices.length

/-- The coefficient of variation `sqrt(variance) / mean * 100`
(src/unnamed/part_003, lines 227-228). -/
noncomputable def seriesVolatility (prices : List ℝ) : ℝ :=
  Real.sqrt ((prices.map (fun p => (p - seriesMean prices) ^ 2)).sum / prices.length)
    / seriesMean prices * 100

/-- The trend field of `analyzePriceTrends` in the extended variant
(src/unnamed/part_003, lines 217-248): same ±5% cuts, but a series whose
coefficient of variation exceeds 15 is classified `volatile` instead of
`stable`. -/
noncomputable def marketTrendExt (prices : List ℝ) : String :=
  if prices.length < 2 then "insufficient_data"
  else if netChangePercentR prices > 5 then "bullish"
  else if netChangePercentR prices < -5 then "bearish"
  else if seriesVolatility prices > 15 then "volatile"
  else "stable"

/-! ## Weather index calculator (CropDiagnosis.tsx, WeatherService) -/

/-- `calculateDewPoint` (CropDiagnosis.tsx, lines 1226-1231): the Magnus
approximation with a = 17.27, b = 237.7. -/
noncomputable def calculateDewPoint (temp humidity : ℝ) : ℝ :=
  let a : ℝ := 17.27
  let b : ℝ := 237.7
  let alpha := a * temp / (b + temp) + Real.log (humidity / 100)
  b * alpha / (a - alpha)

/-- The Rothfusz regression polynomial of `calculateHeatIndex`
(CropDiagnosis.tsx, lines 1237-1250), with the source's exact
coefficients. -/
def rothfusz (temp humidity : ℚ) : ℚ :=
  let c1 : ℚ := -8.78469475556
  let c2 : ℚ := 1.61139411
  let c3 : ℚ := 2.33854883889
  let c4 : ℚ := -0.14611605
  let c5 : ℚ := -0.012308094
  let c6 : ℚ := -0.0164248277778
  let c7 : ℚ := 0.002211732
  let c8 : ℚ := 0.00072546
  let c9 : ℚ := -0.000003582
  c1 + c2 * temp + c3 * humidity + c4 * temp * humidity +
    c5 * temp * temp + c6 * humidity * humidity +
    c7 * temp * temp * humidity + c8 * temp * humidity * humidity +
    c9 * temp * temp * humidity * humidity

/-- `calculateHeatIndex` (CropDiagnosis.tsx, lines 1234-1253): below
27 °C the temperature is returned unchanged, otherwise the rounded
Rothfusz polynomial. -/
def calculateHeatIndex (temp humidity : ℚ) : ℚ :=
  if temp < 27 then temp else jsRound (rothfusz temp humidity)

/-! ## Helper lemmas -/

lemma sub_half_lt_jsRound (x : ℚ) : x - 1/2 < jsRound x := by
  unfold jsRound
  have h := Int.sub_one_lt_floor (x + 1/2)
  linarith

lemma jsRound_le_hundred {x : ℚ} (h : x ≤ 100) : jsRound x ≤ 100 := by
  unfold jsRound
  have : ⌊x + 1/2⌋ ≤ (100 : ℤ) := Int.floor_le_iff.2 (by push_cast; linarith)
  exact_mod_cast this

lemma take_append_take {α : Type} (A B : List α) (k : ℕ) :
    (A ++ B.take k).take k = (A ++ B).take k := by
  rw [List.take_append_eq_append_take, List.take_append_eq_append_take, List.take_take,
    Nat.min_eq_left (Nat.sub_le k A.length)]

lemma storeNotifications_aux {α : Type} :
    ∀ (ns : List α) (l : List α), l.length ≤ 100 →
      ns.foldl storeNotificationStep l = (ns.reverse ++ l).take 100 := by
  intro ns
  induction ns with
  | nil =>
    intro l h
    simpa using (List.take_of_length_le h).symm
  | cons n ns ih =>
    intro l h
    have hstep : storeNotificationStep l n = (n :: l).take 100 := by
      unfold storeNotificationStep
      by_cases hlen : (n :: l).length > 100
      · simp [hlen]
      · rw [if_neg hlen, List.take_of_length_le (by omega)]
    simp only [List.foldl_cons, hstep]
    rw [ih _ (by simp), List.reverse_cons, List.append_assoc]
    simpa using take_append_take ns.reverse (n :: l) 100

lemma storeNotifications_eq {α : Type} (ns : List α) :
    storeNotifications ns = ns.reverse.take 100 := by
  unfold storeNotifications
  rw [storeNotifications_aux ns [] (by simp)]
  simp

lemma optimalRangeFor_lt {s : String} {lo hi : ℚ}
    (h : optimalRangeFor s = some (lo, hi)) : lo < hi := by
  unfold optimalRangeFor at h
  split_ifs at h <;>
    · simp only [Option.some.injEq, Prod.mk.injEq] at h
      obtain ⟨h1, h2⟩ := h
      subst h1
      subst h2
      norm_num

lemma healthDeduction_nonneg (s : String) (v : ℚ) : 0 ≤ healthDeduction s v := by
  unfold healthDeduction
  cases h : optimalRangeFor s with
  | none => simp
  | some r =>
    obtain ⟨lo, hi⟩ := r
    have hlt := optimalRangeFor_lt h
    dsimp only
    split_ifs
    · exact le_min (by norm_num)
        (mul_nonneg (div_nonneg (abs_nonneg _) (by linarith)) (by norm_num))
    · exact le_refl 0

lemma healthDeduction_le (s : String) (v : ℚ) : healthDeduction s v ≤ 20 := by
  unfold healthDeduction
  cases h : optimalRangeFor s with
  | none => norm_num
  | some r =>
    obtain ⟨lo, hi⟩ := r
    dsimp only
    split_ifs
    · exact le_trans (min_le_left _ _) (by norm_num)
    · norm_num

lemma markFirstRead_eq_set :
    ∀ (l : List UserNotification) (nid t i : ℕ) (hi : i < l.length),
      (l.get ⟨i, hi⟩).id = nid →
      (∀ j (hj : j < i), (l.get ⟨j, hj.trans hi⟩).id ≠ nid) →
      markFirstRead l nid t
        = l.set i { l.get ⟨i, hi⟩ with read := true, readAt := some t } := by
  intro l
  induction l with
  | nil => intro nid t i hi; exact absurd hi (Nat.not_lt_zero i)
  | cons n ns ih =>
    intro nid t i hi hid hmin
    cases i with
    | zero =>
      simp only [List.get] at hid
      simp [markFirstRead, hid]
    | succ i =>
      have hn : n.id ≠ nid := hmin 0 (Nat.succ_pos i)
      simp only [markFirstRead, if_neg hn, List.set]
      congr 1
      exact ih nid t i (Nat.lt_of_succ_lt_succ hi) hid
        (fun j hj => hmin (j + 1) (Nat.succ_lt_succ hj))

/-! ## Claims -/

/-- C1: for a known sensorType, threshold evaluation yields at most one
value-threshold alert, chosen first-match in the order critical_low,
warning_low, critical_high, warning_high; a soil_moisture reading of 10
yields exactly one critical alert with action "Immediate irrigation
required", and a soil_moisture reading of 50 yields no value-threshold
alert. -/
theorem C1_threshold_priority :
    (∀ (sensorType : String) (th : Thresholds) (value : ℚ) (battery : Option ℚ),
      thresholdsFor sensorType = some th →
        analyzeForAlerts sensorType value battery
            = valueThresholdAlerts sensorType th value ++ batteryAlerts battery ∧
        (valueThresholdAlerts sensorType th value).length ≤ 1 ∧
        (value ≤ th.critical_low →
          valueThresholdAlerts sensorType th value
            = [⟨"critical", "high", getActionForAlert sensorType "critical_low"⟩]) ∧
        (¬value ≤ th.critical_low → value ≤ th.warning_low →
          valueThresholdAlerts sensorType th value
            = [⟨"warning", "medium", getActionForAlert sensorType "warning_low"⟩]) ∧
        (¬value ≤ th.critical_low → ¬value ≤ th.warning_low → th.critical_high ≤ value →
          valueThresholdAlerts sensorType th value
            = [⟨"critical", "high", getActionForAlert sensorType "critical_high"⟩]) ∧
        (¬value ≤ th.critical_low → ¬value ≤ th.warning_low → ¬th.critical_high ≤ value →
          th.warning_high ≤ value →
          valueThresholdAlerts sensorType th value
            = [⟨"warning", "medium", getActionForAlert sensorType "warning_high"⟩]) ∧
        (¬value ≤ th.critical_low → ¬value ≤ th.warning_low → ¬th.critical_high ≤ value →
          ¬th.warning_high ≤ value → valueThresholdAlerts sensorType th value = [])) ∧
    analyzeForAlerts "soil_moisture" 10 none
      = [⟨"critical", "high", "Immediate irrigation required"⟩] ∧
    analyzeForAlerts "soil_moisture" 50 none = [] := by
  refine ⟨?_, by decide, by decide⟩
  intro st th v batt hth
  refine ⟨by simp [analyzeForAlerts, hth], ?_, ?_, ?_, ?_, ?_, ?_⟩
  · unfold valueThresholdAlerts; split_ifs <;> simp
  · intro h1; simp [valueThresholdAlerts, h1]
  · intro h1 h2; simp [valueThresholdAlerts, h1, h2]
  · intro h1 h2 h3; simp [valueThresholdAlerts, h1, h2, ge_iff_le, h3]
  · intro h1 h2 h3 h4; simp [valueThresholdAlerts, h1, h2, ge_iff_le, h3, h4]
  · intro h1 h2 h3 h4; simp [valueThresholdAlerts, h1, h2, ge_iff_le, h3, h4]

theorem C1_threshold_priority_witness :
    thresholdsFor "humidity" = some ⟨25, 35, 80, 90⟩ ∧
    ¬(30 : ℚ) ≤ 25 ∧ (30 : ℚ) ≤ 35 ∧
    valueThresholdAlerts "humidity" ⟨25, 35, 80, 90⟩ 30
      = [⟨"warning", "medium", getActionForAlert "humidity" "warning_low"⟩] :=
  ⟨by decide, by norm_num, by norm_num,
    (C1_threshold_priority.1 "humidity" ⟨25, 35, 80, 90⟩ 30 none
      (by decide)).2.2.2.1 (by norm_num) (by norm_num)⟩

/-- C2: the per-user notification store prepends each new notification
and truncates to the most recent 100; in general the stored list is the
reverse of the insertion order truncated to 100, and storing 105
notifications one at a time starting from the empty list leaves exactly
100 stored, newest first, with the 5 oldest evicted. -/
theorem C2_notification_cap_and_order :
    (∀ {α : Type} (ns : List α), storeNotifications ns = ns.reverse.take 100) ∧
    (storeNotifications (List.range 105)).length = 100 ∧
    storeNotifications (List.range 105) = (List.range 100).map (fun i => 104 - i) := by
  refine ⟨fun ns => storeNotifications_eq ns, ?_, ?_⟩
  · rw [storeNotifications_eq]; decide
  · rw [storeNotifications_eq]; decide

/-- C3 (amended): for temperature < 27 the heat index is the temperature
exactly; for temperature ≥ 27 it is the rounded Rothfusz polynomial,
which at humidity 100 is ≥ the temperature — but not for every humidity
in [0,100] (see the counterexample at temperature 27, humidity 0). -/
theorem C3_heat_index_amended :
    (∀ t h : ℚ, t < 27 → calculateHeatIndex t h = t) ∧
    (∀ t h : ℚ, 27 ≤ t → calculateHeatIndex t h = jsRound (rothfusz t h)) ∧
    (∀ t : ℚ, 27 ≤ t → t ≤ calculateHeatIndex t 100) := by
  refine ⟨fun t h ht => by simp [calculateHeatIndex, ht],
    fun t h ht => by simp [calculateHeatIndex, not_lt.2 ht],
    fun t ht => ?_⟩
  have hpoly : 4 ≤ rothfusz t 100 - t := by
    unfold rothfusz
    nlinarith [sq_nonneg (t - 27), sub_nonneg.2 ht]
  have hround := sub_half_lt_jsRound (rothfusz t 100)
  have heq : calculateHeatIndex t 100 = jsRound (rothfusz t 100) := by
    simp [calculateHeatIndex, not_lt.2 ht]
  rw [heq]
  linarith

theorem C3_heat_index_amended_witness :
    ((20 : ℚ) < 27 ∧ calculateHeatIndex 20 50 = 20) ∧
    ((27 : ℚ) ≤ 30 ∧ (30 : ℚ) ≤ calculateHeatIndex 30 100) :=
  ⟨⟨by norm_num, C3_heat_index_amended.1 20 50 (by norm_num)⟩,
    ⟨by norm_num, C3_heat_index_amended.2.2 30 (by norm_num)⟩⟩

theorem C3_heat_index_counterexample :
    (27 : ℚ) ≤ 27 ∧ (0 : ℚ) ≤ 0 ∧ (0 : ℚ) ≤ 100 ∧
    calculateHeatIndex 27 0 = 26 ∧ (26 : ℚ) < 27 := by
  refine ⟨le_refl _, le_refl _, by norm_num, ?_, by norm_num⟩
  norm_num [calculateHeatIndex, rothfusz, jsRound]

/-- C4 (amended): a scheduled notification is suppressed exactly when
the current hour is ≥ quietStart or ≤ quietEnd (the source's closed
disjunctive comparison, not membership in a half-open wraparound window
[quietStart, quietEnd)), or the frequency is "never", or the frequency
is "weekly" and the current day is not Monday (day 1). -/
theorem C4_scheduled_suppression_amended :
    ∀ (p : Preferences) (currentHour currentDay : ℕ),
      shouldSendScheduledNotification p currentHour currentDay = false ↔
        (p.quietStart ≤ currentHour ∨ currentHour ≤ p.quietEnd) ∨
        p.frequency = "never" ∨
        (p.frequency = "weekly" ∧ currentDay ≠ 1) := by
  intro p currentHour currentDay
  unfold shouldSendScheduledNotification
  split_ifs with h1 h2 h3 <;> simp_all [ge_iff_le]

theorem C4_scheduled_suppression_counterexample :
    shouldSendScheduledNotification
      ⟨"immediate", 22, 6, "en", "Asia/Kolkata"⟩ 6 3 = false ∧
    ¬ claimedSuppressed ⟨"immediate", 22, 6, "en", "Asia/Kolkata"⟩ 6 3 := by
  constructor
  · rfl
  · unfold claimedSuppressed claimedQuietWindow
    decide

/-- C5 (amended): in the server market-service version the trend is
"bullish" exactly when the net percent change exceeds +5, "bearish"
exactly when it is below −5, and "stable" otherwise; in the extended
variant (src/unnamed/part_003) the ±5 cuts are the same but a series
with net change within ±5 is "stable" only when its coefficient of
variation is ≤ 15, and "volatile" otherwise — so there the
classification is not independent of the individual daily values. -/
theorem C5_trend_classification_amended :
    (∀ prices : List ℚ, 2 ≤ prices.length →
      (marketTrend prices = "bullish" ↔ 5 < netChangePercent prices) ∧
      (marketTrend prices = "bearish" ↔ netChangePercent prices < -5) ∧
      (marketTrend prices = "stable" ↔
        -5 ≤ netChangePercent prices ∧ netChangePercent prices ≤ 5)) ∧
    (∀ prices : List ℝ, 2 ≤ prices.length →
      (marketTrendExt prices = "bullish" ↔ 5 < netChangePercentR prices) ∧
      (marketTrendExt prices = "bearish" ↔ netChangePercentR prices < -5) ∧
      (marketTrendExt prices = "volatile" ↔
        (-5 ≤ netChangePercentR prices ∧ netChangePercentR prices ≤ 5 ∧
          15 < seriesVolatility prices)) ∧
      (marketTrendExt prices = "stable" ↔
        (-5 ≤ netChangePercentR prices ∧ netChangePercentR prices ≤ 5 ∧
          seriesVolatility prices ≤ 15))) := by
  constructor
  · intro prices hlen
    have hnl : ¬ prices.length < 2 := not_lt.2 hlen
    unfold marketTrend
    rw [if_neg hnl]
    split_ifs with h1 h2
    · exact ⟨⟨fun _ => h1, fun _ => rfl⟩,
        ⟨fun hx => absurd hx (by decide), fun hx => absurd hx (by linarith)⟩,
        ⟨fun hx => absurd hx (by decide), fun hx => absurd h1 (not_lt.2 hx.2)⟩⟩
    · exact ⟨⟨fun hx => absurd hx (by decide), fun hx => absurd hx h1⟩,
        ⟨fun _ => h2, fun _ => rfl⟩,
        ⟨fun hx => absurd hx (by decide), fun hx => absurd h2 (not_lt.2 hx.1)⟩⟩
    · exact ⟨⟨fun hx => absurd hx (by decide), fun hx => absurd hx h1⟩,
        ⟨fun hx => absurd hx (by decide), fun hx => absurd hx h2⟩,
        ⟨fun _ => ⟨not_lt.mp h2, not_lt.mp h1⟩, fun _ => rfl⟩⟩
  · intro prices hlen
    have hnl : ¬ prices.length < 2 := not_lt.2 hlen
    unfold marketTrendExt
    rw [if_neg hnl]
    split_ifs with h1 h2 h3
    · exact ⟨⟨fun _ => h1, fun _ => rfl⟩,
        ⟨fun hx => absurd hx (by decide), fun hx => absurd hx (by linarith)⟩,
        ⟨fun hx => absurd hx (by decide), fun hx => absurd h1 (not_lt.2 hx.2.1)⟩,
        ⟨fun hx => absurd hx (by decide), fun hx => absurd h1 (not_lt.2 hx.2.1)⟩⟩
    · exact ⟨⟨fun hx => absurd hx (by decide), fun hx => absurd hx h1⟩,
        ⟨fun _ => h2, fun _ => rfl⟩,
        ⟨fun hx => absurd hx (by decide), fun hx => absurd h2 (not_lt.2 hx.1)⟩,
        ⟨fun hx => absurd hx (by decide), fun hx => absurd h2 (not_lt.2 hx.1)⟩⟩
    · exact ⟨⟨fun hx => absurd hx (by decide), fun hx => absurd hx h1⟩,
        ⟨fun hx => absurd hx (by decide), fun hx => absurd hx h2⟩,
        ⟨fun _ => ⟨not_lt.mp h2, not_lt.mp h1, h3⟩, fun _ => rfl⟩,
        ⟨fun hx => absurd hx (by decide), fun hx => absurd h3 (not_lt.2 hx.2.2)⟩⟩
    · exact ⟨⟨fun hx => absurd hx (by decide), fun hx => absurd hx h1⟩,
        ⟨fun hx => absurd hx (by decide), fun hx => absurd hx h2⟩,
        ⟨fun hx => absurd hx (by decide), fun hx => absurd hx.2.2 h3⟩,
        ⟨fun _ => ⟨not_lt.mp h2, not_lt.mp h1, not_lt.mp h3⟩, fun _ => rfl⟩⟩

theorem C5_trend_classification_witness :
    (2 ≤ ([100, 110] : List ℚ).length ∧
      (marketTrend [100, 110] = "bullish" ↔ 5 < netChangePercent [100, 110])) ∧
    (2 ≤ ([100, 110] : List ℝ).length ∧
      (marketTrendExt [100, 110] = "bullish" ↔ 5 < netChangePercentR [100, 110])) :=
  ⟨⟨by norm_num, (C5_trend_classification_amended.1 [100, 110] (by norm_num)).1⟩,
    ⟨by norm_num, (C5_trend_classification_amended.2 [100, 110] (by norm_num)).1⟩⟩

theorem C5_trend_classification_counterexample :
    netChangePercentR [100, 300, 100] = 0 ∧
    marketTrendExt [100, 300, 100] = "volatile" := by
  have hchange : netChangePercentR [100, 300, 100] = 0 := by
    simp [netChangePercentR]
  have hmean : seriesMean [100, 300, 100] = 500 / 3 := by
    simp [seriesMean]
    norm_num
  have hvol : 15 < seriesVolatility [100, 300, 100] := by
    unfold seriesVolatility
    rw [hmean]
    have hsum : (([100, 300, 100] : List ℝ).map
        (fun p => (p - 500 / 3) ^ 2)).sum / (([100, 300, 100] : List ℝ).length : ℝ)
        = 80000 / 9 := by
      simp [List.sum_cons]
      norm_num
    rw [hsum]
    have h25 : (25 : ℝ) < Real.sqrt (80000 / 9) :=
      (Real.lt_sqrt (by norm_num)).2 (by norm_num)
    rw [div_mul_eq_mul_div, mul_comm]
    rw [lt_div_iff₀ (by norm_num : (0:ℝ) < 500 / 3)]
    nlinarith
  constructor
  · exact hchange
  · unfold marketTrendExt
    rw [if_neg (by norm_num), if_neg (by rw [hchange]; norm_num),
      if_neg (by rw [hchange]; norm_num), if_pos hvol]

/-- C6: the farm health score starts at 100, subtracts at most 20 points
per sensor with a defined optimal range scaled by the normalised
deviation from the range midpoint, is clamped to [0, 100], and is 0 when
no valid sensor reading is present; the six sensors at their optimal
midpoints score exactly 100, and dropping one sensor still yields a
computed score (100) over the remaining five. -/
theorem C6_farm_health_score :
    (∀ (s : String) (v : ℚ), 0 ≤ healthDeduction s v ∧ healthDeduction s v ≤ 20) ∧
    (∀ sensors : List (String × ℚ),
      0 ≤ calculateFarmHealthScore sensors ∧ calculateFarmHealthScore sensors ≤ 100) ∧
    (∀ sensors : List (String × ℚ),
      (sensors.filter (fun p => p.2 ≠ 0)).length = 0 → calculateFarmHealthScore sensors = 0) ∧
    calculateFarmHealthScore
      [("soil_moisture", 50), ("soil_temperature", 25), ("soil_ph", 27/4),
       ("air_temperature", 55/2), ("humidity", 60), ("light_intensity", 45000)] = 100 ∧
    calculateFarmHealthScore
      [("soil_moisture", 50), ("soil_temperature", 25), ("soil_ph", 27/4),
       ("air_temperature", 55/2), ("light_intensity", 45000)] = 100 := by
  refine ⟨fun s v => ⟨healthDeduction_nonneg s v, healthDeduction_le s v⟩, ?_, ?_, ?_, ?_⟩
  · intro sensors
    unfold calculateFarmHealthScore
    by_cases hv : (sensors.filter (fun p => p.2 ≠ 0)).length > 0
    · rw [if_pos hv]
      have hsum : 0 ≤ ((sensors.filter (fun p => p.2 ≠ 0)).map
          (fun p => healthDeduction p.1 p.2)).sum := by
        apply List.sum_nonneg
        intro x hx
        obtain ⟨p, _, rfl⟩ := List.mem_map.1 hx
        exact healthDeduction_nonneg p.1 p.2
      exact ⟨le_max_left 0 _, max_le (by norm_num) (jsRound_le_hundred (by linarith))⟩
    · rw [if_neg hv]
      norm_num
  · intro sensors h
    unfold calculateFarmHealthScore
    rw [if_neg (by omega)]
  · simp +decide [calculateFarmHealthScore, healthDeduction, optimalRangeFor]
    norm_num [jsRound]
  · simp +decide [calculateFarmHealthScore, healthDeduction, optimalRangeFor]
    norm_num [jsRound]

theorem C6_farm_health_score_witness :
    (([] : List (String × ℚ)).filter (fun p => p.2 ≠ 0)).length = 0 ∧
    calculateFarmHealthScore [] = 0 :=
  ⟨rfl, C6_farm_health_score.2.2.1 [] rfl⟩

/-- C7 (amended): for every temperature above −237.7 (the Magnus
constant −b, where the source's denominator changes sign) and every
humidity with 0 < humidity ≤ 100, the Magnus dew point is ≤ the input
temperature.  The unrestricted claim fails: at temperature −2000 and
humidity 5 the formula returns a positive value (see the
counterexample), and at humidity 0 the source's ln(0) is undefined. -/
theorem C7_dew_point_amended :
    ∀ T H : ℝ, -237.7 < T → 0 < H → H ≤ 100 → calculateDewPoint T H ≤ T := by
  intro T H hT hH0 hH1
  have hb : (0:ℝ) < 237.7 + T := by linarith
  have hlog : Real.log (H / 100) ≤ 0 :=
    Real.log_nonpos (by positivity) (by linarith)
  show 237.7 * (17.27 * T / (237.7 + T) + Real.log (H / 100)) /
      (17.27 - (17.27 * T / (237.7 + T) + Real.log (H / 100))) ≤ T
  set u : ℝ := 17.27 * T / (237.7 + T) with hu_def
  have hu_lt : u < 17.27 := by
    rw [hu_def, div_lt_iff₀ hb]
    nlinarith
  have halpha : u + Real.log (H / 100) ≤ u := by linarith
  have hden : 0 < 17.27 - (u + Real.log (H / 100)) := by linarith
  rw [div_le_iff₀ hden]
  have hmu : u * (237.7 + T) = 17.27 * T := by
    rw [hu_def]
    exact div_mul_cancel₀ _ (ne_of_gt hb)
  have hprod : (u + Real.log (H / 100)) * (237.7 + T) ≤ u * (237.7 + T) :=
    mul_le_mul_of_nonneg_right halpha hb.le
  nlinarith [hprod, hmu]

theorem C7_dew_point_amended_witness :
    (-237.7 : ℝ) < 20 ∧ (0 : ℝ) < 50 ∧ (50 : ℝ) ≤ 100 ∧
    calculateDewPoint 20 50 ≤ 20 :=
  ⟨by norm_num, by norm_num, by norm_num,
    C7_dew_point_amended 20 50 (by norm_num) (by norm_num) (by norm_num)⟩

theorem C7_dew_point_counterexample :
    (0 : ℝ) ≤ 5 ∧ (5 : ℝ) ≤ 100 ∧ -2000 < calculateDewPoint (-2000) 5 := by
  refine ⟨by norm_num, by norm_num, ?_⟩
  show (-2000 : ℝ) <
    237.7 * (17.27 * (-2000) / (237.7 + -2000) + Real.log (5 / 100)) /
      (17.27 - (17.27 * (-2000) / (237.7 + -2000) + Real.log (5 / 100)))
  have h1 : (17.27 : ℝ) * (-2000) / (237.7 + -2000) = 34540 / 1762.3 := by
    norm_num
  have hlog20 : Real.log (5 / 100 : ℝ) = -Real.log 20 := by
    rw [show (5 / 100 : ℝ) = 20⁻¹ by norm_num, Real.log_inv]
  have hup : Real.log 20 ≤ 19 := by
    have := Real.log_le_sub_one_of_pos (by norm_num : (0:ℝ) < 20)
    linarith
  have hlo : (2.772 : ℝ) < Real.log 20 := by
    have h16 : Real.log 16 ≤ Real.log 20 := Real.log_le_log (by norm_num) (by norm_num)
    have h16eq : Real.log 16 = 4 * Real.log 2 := by
      rw [show (16:ℝ) = 2 ^ (4:ℕ) by norm_num, Real.log_pow]
      norm_num
    nlinarith [Real.log_two_gt_d9]
  rw [h1, hlog20]
  have hαpos : (0:ℝ) < 34540 / 1762.3 + -Real.log 20 := by
    have : (19:ℝ) < 34540 / 1762.3 := by norm_num
    linarith
  have hαlt : 34540 / 1762.3 + -Real.log 20 < 17.27 := by
    have : (34540 : ℝ) / 1762.3 < 17.27 + 2.772 := by norm_num
    linarith
  have hpos : (0:ℝ) <
      237.7 * (34540 / 1762.3 + -Real.log 20) /
        (17.27 - (34540 / 1762.3 + -Real.log 20)) := by
    apply div_pos
    · nlinarith
    · linarith
  linarith

/-- C8 (amended): for a known sensorType and a present, nonzero
batteryLevel below 20, alert analysis appends exactly one maintenance
alert (type "maintenance", severity "low") after any value-threshold
alert for the same reading.  The unrestricted claim fails: a battery
level of exactly 0 is falsy in the source guard, and an unknown
sensorType returns before the battery check (see the counterexample). -/
theorem C8_battery_alert_amended :
    ∀ (sensorType : String) (th : Thresholds) (value b : ℚ),
      thresholdsFor sensorType = some th → b ≠ 0 → b < 20 →
      analyzeForAlerts sensorType value (some b)
        = valueThresholdAlerts sensorType th value
            ++ [⟨"maintenance", "low", "Replace or recharge sensor battery"⟩] ∧
      (⟨"maintenance", "low", "Replace or recharge sensor battery"⟩ : Alert)
        ∈ analyzeForAlerts sensorType value (some b) := by
  intro st th v b hth hb0 hb20
  have hbatt : batteryAlerts (some b)
      = [⟨"maintenance", "low", "Replace or recharge sensor battery"⟩] := by
    simp [batteryAlerts, hb0, hb20]
  constructor
  · simp [analyzeForAlerts, hth, hbatt]
  · simp [analyzeForAlerts, hth, hbatt]

theorem C8_battery_alert_amended_witness :
    thresholdsFor "humidity" = some ⟨25, 35, 80, 90⟩ ∧ (10 : ℚ) ≠ 0 ∧ (10 : ℚ) < 20 ∧
    (⟨"maintenance", "low", "Replace or recharge sensor battery"⟩ : Alert)
      ∈ analyzeForAlerts "humidity" 60 (some 10) :=
  ⟨by decide, by norm_num, by norm_num,
    (C8_battery_alert_amended "humidity" ⟨25, 35, 80, 90⟩ 60 10
      (by decide) (by norm_num) (by norm_num)).2⟩

theorem C8_battery_alert_counterexample :
    (0 : ℚ) < 20 ∧ (10 : ℚ) < 20 ∧
    analyzeForAlerts "soil_moisture" 50 (some 0) = [] ∧
    analyzeForAlerts "unknown_sensor" 50 (some 10) = [] := by
  refine ⟨by norm_num, by norm_num, by decide, by decide⟩

/-- C9: subscribing the same userId twice replaces the stored
subscription wholesale with the normalisation of the second request, so
a price-alert delivery performed afterwards uses the second request's
channel set. -/
theorem C9_resubscribe_replaces :
    ∀ (store : SubscriptionStore) (s1 s2 : SubscriptionInput) (u : String),
      s2.userId = u →
      (subscribe (subscribe store s1) s2) u = some (mkSubscriptionData s2) ∧
      (mkSubscriptionData s2).channels = s2.channels.getD ["push"] ∧
      (∀ change : ℚ, 5 ≤ |change| →
        priceAlertChannels (subscribe (subscribe store s1) s2) u change
          = some (s2.channels.getD ["push"])) := by
  intro store s1 s2 u h2
  have hstore : (subscribe (subscribe store s1) s2) u = some (mkSubscriptionData s2) := by
    simp [subscribe, h2]
  refine ⟨hstore, rfl, ?_⟩
  intro change hchange
  simp [priceAlertChannels, hstore, hchange]
  rfl

theorem C9_resubscribe_replaces_witness :
    (SubscriptionInput.mk "farmer1" "farm1" none (some ["sms", "push"])
        none none none none none).userId = "farmer1" ∧
    (5 : ℚ) ≤ |(7 : ℚ)| ∧
    priceAlertChannels
      (subscribe
        (subscribe (fun _ => none)
          (SubscriptionInput.mk "farmer1" "farm1" none (some ["email"])
            none none none none none))
        (SubscriptionInput.mk "farmer1" "farm1" none (some ["sms", "push"])
          none none none none none))
      "farmer1" 7 = some ["sms", "push"] :=
  ⟨rfl, by norm_num,
    (C9_resubscribe_replaces (fun _ => none)
      (SubscriptionInput.mk "farmer1" "farm1" none (some ["email"])
        none none none none none)
      (SubscriptionInput.mk "farmer1" "farm1" none (some ["sms", "push"])
        none none none none none)
      "farmer1" rfl).2.2 7 (by norm_num)⟩

/-- C10: markAsRead with an absent notificationId returns status
"notification_not_found" and leaves the stored list unchanged; with a
present notificationId it returns "marked_as_read" and updates only the
first matching notification, setting its read flag and readAt and
leaving every other entry (and the rest of that entry) unchanged. -/
theorem C10_mark_as_read :
    ∀ (l : List UserNotification) (nid t : ℕ),
      ((∀ n ∈ l, n.id ≠ nid) → markAsRead l nid t = (l, "notification_not_found")) ∧
      (∀ i (hi : i < l.length), (l.get ⟨i, hi⟩).id = nid →
        (∀ j (hj : j < i), (l.get ⟨j, hj.trans hi⟩).id ≠ nid) →
        markAsRead l nid t
          = (l.set i { l.get ⟨i, hi⟩ with read := true, readAt := some t },
             "marked_as_read")) := by
  intro l nid t
  constructor
  · intro h
    have hfalse : l.any (fun n => n.id = nid) = false := by
      simp only [List.any_eq_false, decide_eq_true_eq]
      exact h
    unfold markAsRead
    rw [if_neg (by simp [hfalse])]
  · intro i hi hid hmin
    have hany : l.any (fun n => n.id = nid) = true := by
      simp only [List.any_eq_true, decide_eq_true_eq]
      exact ⟨l.get ⟨i, hi⟩, List.get_mem l i hi, hid⟩
    unfold markAsRead
    rw [if_pos hany, markFirstRead_eq_set l nid t i hi hid hmin]

theorem C10_mark_as_read_witness :
    markAsRead [⟨1, false, none, 7⟩, ⟨2, false, none, 8⟩] 5 99
      = ([⟨1, false, none, 7⟩, ⟨2, false, none, 8⟩], "notification_not_found") ∧
    markAsRead [⟨1, false, none, 7⟩, ⟨2, false, none, 8⟩] 2 99
      = ([⟨1, false, none, 7⟩, ⟨2, true, some 99, 8⟩], "marked_as_read") := by
  constructor
  · exact (C10_mark_as_read [⟨1, false, none, 7⟩, ⟨2, false, none, 8⟩] 5 99).1
      (by decide)
  · have hi : 1 < ([⟨1, false, none, 7⟩,
        ⟨2, false, none, 8⟩] : List UserNotification).length := by decide
    have h2 := (C10_mark_as_read [⟨1, false, none, 7⟩, ⟨2, false, none, 8⟩] 2 99).2 1
      hi rfl (fun j hj => by interval_cases j; exact (by decide : ¬(1 = 2)))
    exact h2.trans rfl

end FarmSpec
